import Mathlib

/-!
# VideoForm (QtScrcpy/videoform.cpp)

A shallow embedding of `VideoForm`: the form's own member (`frameSize`), the
part of the widget state its code reads and writes, and the calls it issues to
its collaborators (`Server`, `Decoder`, `Frames`, `InputConvertGame`, the video
widget, the toolkit), recorded in program order as a list of `Call`s.

Every handler is a function `VideoForm → ... → VideoForm × List Call`: the
state after the handler and the calls it made, oldest first.
-/

namespace QtScrcpy

/-! ## Toolkit value types -/

/-- The value a C++ `int` holds after an arithmetic result `z`
(32-bit two's complement wrap-around). -/
def wrapInt (z : Int) : Int := (z + 2147483648) % 4294967296 - 2147483648

/-- C++ `a / 2` on `int`: division truncating toward zero. -/
def half (a : Int) : Int := Int.tdiv a 2

/-- The toolkit's `QSize`: a width and a height, both `int`. -/
structure QSize where
  width : Int
  height : Int
deriving DecidableEq, Repr

/-- `QSize::setWidth`. -/
def QSize.setWidth (s : QSize) (w : Int) : QSize := { s with width := w }

/-- `QSize::setHeight`. -/
def QSize.setHeight (s : QSize) (h : Int) : QSize := { s with height := h }

/-- The toolkit's `QPoint`. -/
structure QPoint where
  x : Int
  y : Int
deriving DecidableEq, Repr

/-- `QPoint` subtraction, component-wise on `int`. -/
def QPoint.sub (p q : QPoint) : QPoint := ⟨wrapInt (p.x - q.x), wrapInt (p.y - q.y)⟩

/-- `QPoint` addition, component-wise on `int`. -/
def QPoint.add (p q : QPoint) : QPoint := ⟨wrapInt (p.x + q.x), wrapInt (p.y + q.y)⟩

/-- The toolkit's `QRect`, stored as its left, top, right and bottom edges
(right and bottom inclusive). -/
structure QRect where
  x1 : Int
  y1 : Int
  x2 : Int
  y2 : Int
deriving DecidableEq, Repr

/-- `QRect(left, top, width, height)`. -/
def QRect.ofXYWH (left top width height : Int) : QRect :=
  ⟨left, top, wrapInt (left + width - 1), wrapInt (top + height - 1)⟩

/-- `QRect(topLeft, size)`. -/
def QRect.ofPointSize (p : QPoint) (s : QSize) : QRect :=
  QRect.ofXYWH p.x p.y s.width s.height

/-- `QRect::width`. -/
def QRect.width (r : QRect) : Int := wrapInt (r.x2 - r.x1 + 1)

/-- `QRect::height`. -/
def QRect.height (r : QRect) : Int := wrapInt (r.y2 - r.y1 + 1)

/-- `QRect::center`: computed by the toolkit in 64 bits, so the sum does not wrap. -/
def QRect.center (r : QRect) : QPoint := ⟨half (r.x1 + r.x2), half (r.y1 + r.y2)⟩

/-- The fields of an `AVFrame` that the form reads: the picture size, the three
plane pointers `data[0..2]` (as addresses) and the three strides `linesize[0..2]`. -/
structure AVFrame where
  width : Int
  height : Int
  data0 : Nat
  data1 : Nat
  data2 : Nat
  linesize0 : Int
  linesize1 : Int
  linesize2 : Int
deriving DecidableEq, Repr

/-- A `QMouseEvent` as the form sees it: it is passed on untouched. -/
structure QMouseEvent where
  type : Nat
  pos : QPoint
  button : Nat
deriving DecidableEq, Repr

/-- A `QWheelEvent` as the form sees it: it is passed on untouched. -/
structure QWheelEvent where
  pos : QPoint
  delta : Int
deriving DecidableEq, Repr

/-- A `QKeyEvent`: the form reads `key()` and `isAutoRepeat()`. -/
structure QKeyEvent where
  type : Nat
  key : Int
  isAutoRepeat : Bool
deriving DecidableEq, Repr

/-- `Qt::Key_Escape`. -/
def Key_Escape : Int := 0x01000000

/-! ## Calls issued by the form -/

/-- The calls `VideoForm` makes on its collaborators and on the toolkit. -/
inductive Call where
  /-- Call `ui->setupUi(this)` -/
  | setupUi
  /-- Call `setAttribute(Qt::WA_DeleteOnClose)` -/
  | setAttributeDeleteOnClose
  /-- Call `setMouseTracking(true)` -/
  | setMouseTracking
  /-- Call `ui->videoWidget->setMouseTracking(true)` -/
  | videoSetMouseTracking
  /-- Call `new Server()` -/
  | newServer
  /-- Call `m_frames.init()` -/
  | framesInit
  /-- Call `m_decoder.setFrames(&m_frames)` -/
  | decoderSetFrames
  /-- Call `QTimer::singleShot(0, this, ...)` -/
  | timerSingleShot
  /-- Call `IconHelper::Instance()->SetIcon(button, glyph, size)` -/
  | setIcon (button : String) (glyph : Nat) (size : Nat)
  /-- Call `ClipCursor(&rect)` with `left, top, right, bottom`, or `ClipCursor(Q_NULLPTR)` -/
  | clipCursor (rect : Option (Int × Int × Int × Int))
  /-- Call `m_server->connectTo()` -/
  | serverConnectTo
  /-- Call `m_server->start(serial, port, maxSize, bitRate, crop)` -/
  | serverStart (serial : String) (port maxSize bitRate : Nat) (crop : String)
  /-- Call `m_server->getDeviceSocket()` -/
  | serverGetDeviceSocket
  /-- Call `m_server->stop()` -/
  | serverStop
  /-- Call `delete m_server` -/
  | deleteServer
  /-- Call `m_decoder.setDeviceSocket(socket)` -/
  | decoderSetDeviceSocket (socket : Nat)
  /-- Call `m_decoder.startDecode()` -/
  | decoderStartDecode
  /-- Call `m_decoder.stopDecode()` -/
  | decoderStopDecode
  /-- Call `m_inputConvert.setDeviceSocket(socket)` -/
  | inputSetDeviceSocket (socket : Nat)
  /-- Call `m_inputConvert.mouseEvent(event, frameSize, showSize)` -/
  | inputMouseEvent (event : QMouseEvent) (frameSize showSize : QSize)
  /-- Call `m_inputConvert.wheelEvent(event, frameSize, showSize)` -/
  | inputWheelEvent (event : QWheelEvent) (frameSize showSize : QSize)
  /-- Call `m_inputConvert.keyEvent(event, frameSize, showSize)` -/
  | inputKeyEvent (event : QKeyEvent) (frameSize showSize : QSize)
  /-- Call `close()` on the form -/
  | close
  /-- Call `qDebug() << msg` -/
  | qDebug (msg : String)
  /-- Call `m_frames.lock()` -/
  | framesLock
  /-- Call `m_frames.consumeRenderedFrame()` -/
  | framesConsumeRenderedFrame
  /-- Call `m_frames.unLock()` -/
  | framesUnLock
  /-- Call `m_frames.deInit()` -/
  | framesDeInit
  /-- Call `ui->videoWidget->setFrameSize(size)` -/
  | videoSetFrameSize (size : QSize)
  /-- Call `ui->videoWidget->updateTextures(dataY, dataU, dataV, linesizeY, linesizeU, linesizeV)` -/
  | videoUpdateTextures (dataY dataU dataV : Nat) (linesizeY linesizeU linesizeV : Int)
  /-- Call `setWindowTitle(title)` -/
  | setWindowTitle (title : String)
  /-- Call `move(p)` on the form -/
  | move (p : QPoint)
  /-- Call `resize(s)` on the form -/
  | resize (s : QSize)
  /-- Call `showNormal()` -/
  | showNormal
  /-- Call `showFullScreen()` -/
  | showFullScreen
  /-- Call `ui->rightToolWidget->show()` -/
  | rightToolShow
  /-- Call `ui->rightToolWidget->hide()` -/
  | rightToolHide
  /-- Call `delete ui` -/
  | deleteUi
deriving DecidableEq, Repr

/-! ## The form -/

/-- The state `VideoForm`'s code reads and writes.

* `m_serial`, `frameSize`: members of the form.
* `windowTitle`, `pos`, `size`, `fullScreen`, `rightToolVisible`: the widget
  state behind `setWindowTitle`, `move`, `size()`/`resize`, `isFullScreen()`/
  `showNormal`/`showFullScreen` and `ui->rightToolWidget`.
* `videoFrameSize`, `videoSize`, `videoPos`: `ui->videoWidget->frameSize()`,
  `->size()`, `->pos()`.
* `deviceSocket`: what `m_server->getDeviceSocket()` returns.
* `desktop`: `QApplication::desktop()`; `none` is the null pointer, `some r`
  a desktop whose `availableGeometry()` is `r`.
* `titleBarHeight`: `style()->pixelMetric(QStyle::PM_TitleBarHeight)`.
* `globalOrigin`: the offset `mapToGlobal` adds.
* `win32`: whether `Q_OS_WIN32` is defined.

The toolkit calls are taken at their documented meaning: `move` and `resize`
store the position and size that `pos()` and `size()` return, `showNormal` and
`showFullScreen` clear and set what `isFullScreen()` returns, the video
widget's `setFrameSize` stores what its `frameSize()` returns, and
`getDeviceSocket()` only reads. The video widget is laid out again by later
events of the toolkit, not inside a call of the form. -/
structure VideoForm where
  m_serial : String
  frameSize : QSize
  windowTitle : String
  pos : QPoint
  size : QSize
  fullScreen : Bool
  rightToolVisible : Bool
  videoFrameSize : QSize
  videoSize : QSize
  videoPos : QPoint
  deviceSocket : Nat
  desktop : Option QRect
  titleBarHeight : Int
  globalOrigin : QPoint
  win32 : Bool
deriving DecidableEq, Repr

/-- The result of a piece of the form's code: the state it leaves and the
calls it made, oldest first. -/
abbrev Outcome := VideoForm × List Call

/-- Sequencing: run `k` on the state `r` leaves and append its calls. -/
def andThen (r : Outcome) (k : VideoForm → Outcome) : Outcome :=
  ((k r.1).1, r.2 ++ (k r.1).2)

/-- `VideoForm::switchFullScreen`. -/
def switchFullScreen (f : VideoForm) : Outcome :=
  if f.fullScreen then
    ({ f with fullScreen := false, rightToolVisible := true },
      [Call.showNormal, Call.rightToolShow])
  else
    ({ f with rightToolVisible := false, fullScreen := true },
      [Call.rightToolHide, Call.showFullScreen])

/-- The `if (desktop) { ... }` block of `updateShowSize`, for a desktop whose
available geometry is `screenRect`: the clamped `showSize`, then leaving full
screen and centring the window. Returns the outcome and the `showSize` it
computed. -/
def fitToDesktop (f : VideoForm) (newSize : QSize) (screenRect : QRect) : Outcome × QSize :=
  let vertical : Bool := decide (newSize.height > newSize.width)
  let showSize : QSize :=
    if vertical then
      let s := newSize.setHeight (min newSize.height screenRect.height)
      s.setWidth (half s.height)
    else
      let s := newSize.setWidth (min newSize.width screenRect.width)
      s.setHeight (half s.width)
  let r1 : Outcome := if f.fullScreen then switchFullScreen f else (f, [])
  let p : QPoint :=
    QPoint.sub screenRect.center (QRect.ofXYWH 0 0 showSize.width showSize.height).center
  (andThen r1 (fun g => ({ g with pos := p }, [Call.move p])), showSize)

/-- The end of `updateShowSize`: `if (showSize != size()) resize(showSize)`. -/
def resizeIfChanged (g : VideoForm) (showSize : QSize) : Outcome :=
  if showSize ≠ g.size then ({ g with size := showSize }, [Call.resize showSize])
  else (g, [])

/-- `VideoForm::updateShowSize`. -/
def updateShowSize (f : VideoForm) (newSize : QSize) : Outcome :=
  if f.frameSize ≠ newSize then
    let f1 : VideoForm := { f with frameSize := newSize }
    let r : Outcome × QSize :=
      match f1.desktop with
      | some screenRect => fitToDesktop f1 newSize screenRect
      | none => ((f1, []), newSize)
    andThen r.1 (fun g =>
      resizeIfChanged g (r.2.setHeight (wrapInt (r.2.height - g.titleBarHeight))))
  else
    (f, [])

/-- `VideoForm::initStyle`. -/
def initStyle (f : VideoForm) : Outcome :=
  (f, [Call.setIcon "fullScrcenbtn" 0xf0b2 13, Call.setIcon "returnBtn" 0xf104 15])

/-- The constructor body, run on the state `ui->setupUi(this)` leaves. The
`connect` calls install the handlers below; they issue no call themselves. -/
def construct (f : VideoForm) : Outcome :=
  andThen
    (andThen
      (f, [Call.setupUi, Call.setAttributeDeleteOnClose, Call.setMouseTracking,
           Call.videoSetMouseTracking, Call.newServer, Call.framesInit,
           Call.decoderSetFrames, Call.timerSingleShot])
      (fun g => updateShowSize g g.size))
    initStyle

/-- The destructor `VideoForm::~VideoForm`: the calls it makes, in order. -/
def destruct (_f : VideoForm) : List Call :=
  [Call.serverStop, Call.decoderStopDecode, Call.deleteServer, Call.framesDeInit,
   Call.deleteUi]

/-! ## Handlers -/

/-- The `InputConvertGame::grabCursor` handler. -/
def onGrabCursor (f : VideoForm) (grab : Bool) : Outcome :=
  if f.win32 then
    if grab then
      let rc := QRect.ofPointSize (QPoint.add f.videoPos f.globalOrigin) f.videoSize
      (f, [Call.clipCursor (some (rc.x1, rc.y1, rc.x2, rc.y2))])
    else
      (f, [Call.clipCursor none])
  else
    (f, [])

/-- The `Server::serverStartResult` handler. -/
def onServerStartResult (f : VideoForm) (success : Bool) : Outcome :=
  if success then (f, [Call.serverConnectTo]) else (f, [])

/-- The `Server::connectToResult` handler. -/
def onConnectToResult (f : VideoForm) (success : Bool) (deviceName : String)
    (size : QSize) : Outcome :=
  if success then
    andThen
      (andThen ({ f with windowTitle := deviceName }, [Call.setWindowTitle deviceName])
        (fun g => updateShowSize g size))
      (fun g =>
        (g, [Call.serverGetDeviceSocket, Call.decoderSetDeviceSocket g.deviceSocket,
             Call.decoderStartDecode,
             Call.serverGetDeviceSocket, Call.inputSetDeviceSocket g.deviceSocket]))
  else
    (f, [])

/-- The `Server::onServerStop` handler. -/
def onServerStop (f : VideoForm) : Outcome :=
  (f, [Call.close, Call.qDebug "server process stop"])

/-- The `Decoder::onDecodeStop` handler. -/
def onDecodeStop (f : VideoForm) : Outcome :=
  (f, [Call.close, Call.qDebug "decoder thread stop"])

/-- The `Decoder::onNewFrame` handler; `frame` is the frame that
`m_frames.consumeRenderedFrame()` returns. -/
def onNewFrame (f : VideoForm) (frame : AVFrame) : Outcome :=
  andThen
    (andThen (f, [Call.framesLock, Call.framesConsumeRenderedFrame])
      (fun g => updateShowSize g ⟨frame.width, frame.height⟩))
    (fun g =>
      ({ g with videoFrameSize := ⟨frame.width, frame.height⟩ },
        [Call.videoSetFrameSize ⟨frame.width, frame.height⟩,
         Call.videoUpdateTextures frame.data0 frame.data1 frame.data2
           frame.linesize0 frame.linesize1 frame.linesize2,
         Call.framesUnLock]))

/-- The `QTimer::singleShot` callback. -/
def onTimer (f : VideoForm) : Outcome :=
  (f, [Call.serverStart f.m_serial 27183 720 8000000 ""])

/-- `VideoForm::mousePressEvent`. -/
def mousePressEvent (f : VideoForm) (event : QMouseEvent) : Outcome :=
  (f, [Call.inputMouseEvent event f.videoFrameSize f.videoSize])

/-- `VideoForm::mouseReleaseEvent`. -/
def mouseReleaseEvent (f : VideoForm) (event : QMouseEvent) : Outcome :=
  (f, [Call.inputMouseEvent event f.videoFrameSize f.videoSize])

/-- `VideoForm::mouseMoveEvent`. -/
def mouseMoveEvent (f : VideoForm) (event : QMouseEvent) : Outcome :=
  (f, [Call.inputMouseEvent event f.videoFrameSize f.videoSize])

/-- `VideoForm::wheelEvent`. -/
def wheelEvent (f : VideoForm) (event : QWheelEvent) : Outcome :=
  (f, [Call.inputWheelEvent event f.videoFrameSize f.videoSize])

/-- `VideoForm::keyPressEvent`. -/
def keyPressEvent (f : VideoForm) (event : QKeyEvent) : Outcome :=
  andThen
    (if Key_Escape = event.key && !event.isAutoRepeat && f.fullScreen then
      switchFullScreen f
    else (f, []))
    (fun g => (g, [Call.inputKeyEvent event g.videoFrameSize g.videoSize]))

/-- `VideoForm::keyReleaseEvent`. -/
def keyReleaseEvent (f : VideoForm) (event : QKeyEvent) : Outcome :=
  (f, [Call.inputKeyEvent event f.videoFrameSize f.videoSize])

/-- `VideoForm::on_fullScrcenbtn_clicked`: the button's shortcut is read into an
unused local, then `switchFullScreen()` runs. -/
def on_fullScrcenbtn_clicked (f : VideoForm) : Outcome :=
  switchFullScreen f

/-- `VideoForm::on_returnBtn_clicked`. -/
def on_returnBtn_clicked (f : VideoForm) : Outcome :=
  (f, [])

/-- What the event loop can deliver to the form: a signal it connected in its
constructor, the timer callback, or a widget event it overrides. -/
inductive Event where
  | grabCursor (grab : Bool)
  | serverStartResult (success : Bool)
  | connectToResult (success : Bool) (deviceName : String) (size : QSize)
  | serverStop
  | decodeStop
  | newFrame (frame : AVFrame)
  | timer
  | mousePress (event : QMouseEvent)
  | mouseRelease (event : QMouseEvent)
  | mouseMove (event : QMouseEvent)
  | wheel (event : QWheelEvent)
  | keyPress (event : QKeyEvent)
  | keyRelease (event : QKeyEvent)
  | fullScreenClicked
  | returnClicked
deriving DecidableEq, Repr

/-- Dispatch of one event to its handler. -/
def handle (f : VideoForm) : Event → Outcome
  | .grabCursor grab => onGrabCursor f grab
  | .serverStartResult success => onServerStartResult f success
  | .connectToResult success deviceName size => onConnectToResult f success deviceName size
  | .serverStop => onServerStop f
  | .decodeStop => onDecodeStop f
  | .newFrame frame => onNewFrame f frame
  | .timer => onTimer f
  | .mousePress event => mousePressEvent f event
  | .mouseRelease event => mouseReleaseEvent f event
  | .mouseMove event => mouseMoveEvent f event
  | .wheel event => wheelEvent f event
  | .keyPress event => keyPressEvent f event
  | .keyRelease event => keyReleaseEvent f event
  | .fullScreenClicked => on_fullScrcenbtn_clicked f
  | .returnClicked => on_returnBtn_clicked f

/-- Delivery of a sequence of events, one after the other: the final state and
all the calls made, oldest first. -/
def run (f : VideoForm) : List Event → Outcome
  | [] => (f, [])
  | e :: es => andThen (handle f e) (fun g => run g es)

/-! ## Observations on call lists -/

/-- A stop signal: `Server::onServerStop` or `Decoder::onDecodeStop`. -/
def Event.isStop : Event → Bool
  | .serverStop => true
  | .decodeStop => true
  | _ => false

/-- A handshake result with `success = true`. -/
def Event.isHandshakeSuccess : Event → Bool
  | .connectToResult success _ _ => success
  | _ => false

/-- How often `close()` is called in a list of calls. -/
def closeCount (t : List Call) : Nat := t.count Call.close

/-- The calls that activate the decoder or the input translator. -/
def Call.isActivation : Call → Bool
  | .decoderSetDeviceSocket _ => true
  | .decoderStartDecode => true
  | .inputSetDeviceSocket _ => true
  | _ => false

/-- The activation calls of a list of calls, in order. -/
def activations (t : List Call) : List Call := t.filter Call.isActivation

/-- The calls that launch or connect the server. -/
def Call.isLaunch : Call → Bool
  | .serverStart _ _ _ _ _ => true
  | .serverConnectTo => true
  | _ => false

/-- The launch calls of a list of calls, in order. -/
def launchCalls (t : List Call) : List Call := t.filter Call.isLaunch

/-- The calls that hand an input event to the input translator. -/
def Call.isInput : Call → Bool
  | .inputMouseEvent _ _ _ => true
  | .inputWheelEvent _ _ _ => true
  | .inputKeyEvent _ _ _ => true
  | _ => false

/-- The input calls of a list of calls, in order. -/
def inputCalls (t : List Call) : List Call := t.filter Call.isInput

/-- The calls that change the window: title, position, size, full screen,
tool bar. -/
def Call.isWindow : Call → Bool
  | .move _ => true
  | .resize _ => true
  | .showNormal => true
  | .showFullScreen => true
  | .rightToolShow => true
  | .rightToolHide => true
  | _ => false

/-- The window calls of a list of calls, in order. -/
def windowCalls (t : List Call) : List Call := t.filter Call.isWindow

/-- Whether the frame-buffer lock is held after the calls `t`, given whether
it is held before. -/
def lockHeldAfter : Bool → List Call → Bool
  | held, [] => held
  | _, Call.framesLock :: cs => lockHeldAfter true cs
  | _, Call.framesUnLock :: cs => lockHeldAfter false cs
  | held, _ :: cs => lockHeldAfter held cs

/-- The sizes passed to `resize` in a list of calls, in order. -/
def resizeArgs : List Call → List QSize
  | [] => []
  | Call.resize s :: cs => s :: resizeArgs cs
  | _ :: cs => resizeArgs cs

/-- The claim's reading of activation, to compare with `run`: each successful
handshake result gives the decoder the socket, starts it, and gives the input
translator the same socket; nothing else activates anything. -/
def specActivations (socket : Nat) : List Event → List Call
  | [] => []
  | Event.connectToResult true _ _ :: es =>
      Call.decoderSetDeviceSocket socket :: Call.decoderStartDecode ::
        Call.inputSetDeviceSocket socket :: specActivations socket es
  | _ :: es => specActivations socket es

/-- The claim's reading of launching, to compare with `run`: the timer callback
starts the server, a successful bootstrap result connects, nothing else does
either. -/
def specLaunchCalls (serial : String) : List Event → List Call
  | [] => []
  | Event.timer :: es => Call.serverStart serial 27183 720 8000000 "" :: specLaunchCalls serial es
  | Event.serverStartResult true :: es => Call.serverConnectTo :: specLaunchCalls serial es
  | _ :: es => specLaunchCalls serial es

/-- The claim's reading of forwarding one event received in state `f`: an input
event goes to the input translator once, with the video widget's frame size
and size in `f`; other events forward nothing. -/
def specForward (f : VideoForm) : Event → List Call
  | .mousePress event => [Call.inputMouseEvent event f.videoFrameSize f.videoSize]
  | .mouseRelease event => [Call.inputMouseEvent event f.videoFrameSize f.videoSize]
  | .mouseMove event => [Call.inputMouseEvent event f.videoFrameSize f.videoSize]
  | .wheel event => [Call.inputWheelEvent event f.videoFrameSize f.videoSize]
  | .keyPress event => [Call.inputKeyEvent event f.videoFrameSize f.videoSize]
  | .keyRelease event => [Call.inputKeyEvent event f.videoFrameSize f.videoSize]
  | _ => []

/-- The claim's reading of forwarding a sequence of events: each event is
forwarded in the state the form is in when it arrives. -/
def specInputCalls (f : VideoForm) : List Event → List Call
  | [] => []
  | e :: es => specForward f e ++ specInputCalls (handle f e).1 es

/-- Whether `a` and `b` both occur in `t` and the first `a` comes before the
first `b`. -/
def precedes (a b : Call) (t : List Call) : Bool :=
  decide (a ∈ t) && decide (b ∈ t) && decide (t.indexOf a < t.indexOf b)

/-! ## Sample values -/

/-- A form on a 1920x1080 desktop with a 30 pixel title bar, before any frame. -/
def sampleForm : VideoForm :=
  { m_serial := "P7C0218510000537"
    frameSize := ⟨-1, -1⟩
    windowTitle := ""
    pos := ⟨0, 0⟩
    size := ⟨420, 850⟩
    fullScreen := false
    rightToolVisible := true
    videoFrameSize := ⟨-1, -1⟩
    videoSize := ⟨400, 800⟩
    videoPos := ⟨0, 0⟩
    deviceSocket := 7
    desktop := some (QRect.ofXYWH 0 0 1920 1080)
    titleBarHeight := 30
    globalOrigin := ⟨0, 0⟩
    win32 := false }

/-- The sample form on an ultra-wide 2560x1080 desktop. -/
def ultraWideForm : VideoForm :=
  { sampleForm with desktop := some (QRect.ofXYWH 0 0 2560 1080) }

/-- A 720x1280 portrait frame. -/
def sampleFrame : AVFrame :=
  { width := 720, height := 1280, data0 := 4096, data1 := 8192, data2 := 12288,
    linesize0 := 768, linesize1 := 384, linesize2 := 384 }

end QtScrcpy

namespace QtScrcpy

/-! ## Basic facts -/

theorem andThen_fst (r : Outcome) (k : VideoForm → Outcome) :
    (andThen r k).1 = (k r.1).1 := rfl

theorem andThen_snd (r : Outcome) (k : VideoForm → Outcome) :
    (andThen r k).2 = r.2 ++ (k r.1).2 := rfl

theorem run_cons_fst (f : VideoForm) (e : Event) (es : List Event) :
    (run f (e :: es)).1 = (run (handle f e).1 es).1 := rfl

theorem run_cons_snd (f : VideoForm) (e : Event) (es : List Event) :
    (run f (e :: es)).2 = (handle f e).2 ++ (run (handle f e).1 es).2 := rfl

/-- The fields no code of the form writes, and those `switchFullScreen` leaves. -/
theorem switchFullScreen_keeps (f : VideoForm) :
    (switchFullScreen f).1.m_serial = f.m_serial ∧
    (switchFullScreen f).1.deviceSocket = f.deviceSocket ∧
    (switchFullScreen f).1.frameSize = f.frameSize ∧
    (switchFullScreen f).1.videoFrameSize = f.videoFrameSize ∧
    (switchFullScreen f).1.videoSize = f.videoSize ∧
    (switchFullScreen f).1.titleBarHeight = f.titleBarHeight := by
  unfold switchFullScreen
  split <;> simp

theorem fitToDesktop_keeps (f : VideoForm) (s : QSize) (r : QRect) :
    (fitToDesktop f s r).1.1.m_serial = f.m_serial ∧
    (fitToDesktop f s r).1.1.deviceSocket = f.deviceSocket ∧
    (fitToDesktop f s r).1.1.frameSize = f.frameSize ∧
    (fitToDesktop f s r).1.1.videoFrameSize = f.videoFrameSize ∧
    (fitToDesktop f s r).1.1.videoSize = f.videoSize ∧
    (fitToDesktop f s r).1.1.titleBarHeight = f.titleBarHeight := by
  simp only [fitToDesktop, andThen_fst]
  split
  · exact switchFullScreen_keeps f
  · simp

theorem resizeIfChanged_keeps (g : VideoForm) (s : QSize) :
    (resizeIfChanged g s).1.m_serial = g.m_serial ∧
    (resizeIfChanged g s).1.deviceSocket = g.deviceSocket ∧
    (resizeIfChanged g s).1.frameSize = g.frameSize ∧
    (resizeIfChanged g s).1.videoFrameSize = g.videoFrameSize ∧
    (resizeIfChanged g s).1.videoSize = g.videoSize ∧
    (resizeIfChanged g s).1.titleBarHeight = g.titleBarHeight := by
  unfold resizeIfChanged
  split <;> simp

/-- The shape of `updateShowSize` on a new size when there is a desktop. -/
theorem updateShowSize_some (f : VideoForm) (s : QSize) (r : QRect)
    (h : f.frameSize ≠ s) (hd : f.desktop = some r) :
    updateShowSize f s =
      andThen (fitToDesktop { f with frameSize := s } s r).1 (fun g =>
        resizeIfChanged g ((fitToDesktop { f with frameSize := s } s r).2.setHeight
          (wrapInt ((fitToDesktop { f with frameSize := s } s r).2.height - g.titleBarHeight)))) := by
  unfold updateShowSize
  rw [if_pos h]
  simp only [hd]

/-- The shape of `updateShowSize` on a new size when there is no desktop. -/
theorem updateShowSize_none (f : VideoForm) (s : QSize)
    (h : f.frameSize ≠ s) (hd : f.desktop = none) :
    updateShowSize f s =
      resizeIfChanged { f with frameSize := s }
        (s.setHeight (wrapInt (s.height - f.titleBarHeight))) := by
  unfold updateShowSize
  rw [if_pos h]
  simp only [hd, andThen]
  rfl

/-- `updateShowSize` with the stored size does nothing. -/
theorem updateShowSize_same (f : VideoForm) : updateShowSize f f.frameSize = (f, []) := by
  unfold updateShowSize
  simp

/-- After `updateShowSize f s` the stored frame size is `s`; the fields the form
never writes are unchanged. -/
theorem updateShowSize_keeps (f : VideoForm) (s : QSize) :
    (updateShowSize f s).1.m_serial = f.m_serial ∧
    (updateShowSize f s).1.deviceSocket = f.deviceSocket ∧
    (updateShowSize f s).1.frameSize = s ∧
    (updateShowSize f s).1.videoFrameSize = f.videoFrameSize ∧
    (updateShowSize f s).1.videoSize = f.videoSize ∧
    (updateShowSize f s).1.titleBarHeight = f.titleBarHeight := by
  by_cases h : f.frameSize = s
  · subst h
    rw [updateShowSize_same]
    simp
  · cases hd : f.desktop with
    | none =>
      rw [updateShowSize_none f s h hd]
      have := resizeIfChanged_keeps { f with frameSize := s }
        (s.setHeight (wrapInt (s.height - f.titleBarHeight)))
      simpa using this
    | some r =>
      rw [updateShowSize_some f s r h hd]
      simp only [andThen_fst]
      have h1 := fitToDesktop_keeps { f with frameSize := s } s r
      have h2 := resizeIfChanged_keeps (fitToDesktop { f with frameSize := s } s r).1.1
        ((fitToDesktop { f with frameSize := s } s r).2.setHeight
          (wrapInt ((fitToDesktop { f with frameSize := s } s r).2.height -
            (fitToDesktop { f with frameSize := s } s r).1.1.titleBarHeight)))
      obtain ⟨a1, a2, a3, a4, a5, a6⟩ := h1
      obtain ⟨b1, b2, b3, b4, b5, b6⟩ := h2
      refine ⟨?_, ?_, ?_, ?_, ?_, ?_⟩
      · rw [b1, a1]
      · rw [b2, a2]
      · rw [b3, a3]
      · rw [b4, a4]
      · rw [b5, a5]
      · rw [b6, a6]

/-- Every call `switchFullScreen` makes is a window call. -/
theorem switchFullScreen_window (f : VideoForm) :
    ∀ c ∈ (switchFullScreen f).2, c.isWindow = true := by
  intro c hc
  unfold switchFullScreen at hc
  split at hc <;> simp at hc <;> rcases hc with rfl | rfl <;> rfl

theorem fitToDesktop_window (f : VideoForm) (s : QSize) (r : QRect) :
    ∀ c ∈ (fitToDesktop f s r).1.2, c.isWindow = true := by
  intro c hc
  simp only [fitToDesktop, andThen_snd, List.mem_append] at hc
  rcases hc with hc | hc
  · split at hc
    · exact switchFullScreen_window _ c hc
    · simp at hc
  · simp at hc
    subst hc
    rfl

theorem resizeIfChanged_window (g : VideoForm) (s : QSize) :
    ∀ c ∈ (resizeIfChanged g s).2, c.isWindow = true := by
  intro c hc
  unfold resizeIfChanged at hc
  split at hc
  · simp at hc
    subst hc
    rfl
  · simp at hc

/-- Every call `updateShowSize` makes is a window call. -/
theorem updateShowSize_window (f : VideoForm) (s : QSize) :
    ∀ c ∈ (updateShowSize f s).2, c.isWindow = true := by
  intro c hc
  by_cases h : f.frameSize = s
  · subst h
    rw [updateShowSize_same] at hc
    simp at hc
  · cases hd : f.desktop with
    | none =>
      rw [updateShowSize_none f s h hd] at hc
      exact resizeIfChanged_window _ _ c hc
    | some r =>
      rw [updateShowSize_some f s r h hd] at hc
      simp only [andThen_snd, List.mem_append] at hc
      rcases hc with hc | hc
      · exact fitToDesktop_window _ _ _ c hc
      · exact resizeIfChanged_window _ _ c hc

/-- A filter that rejects window calls rejects all of `updateShowSize`. -/
theorem updateShowSize_filter (p : Call → Bool) (hp : ∀ c, c.isWindow = true → p c = false)
    (f : VideoForm) (s : QSize) : (updateShowSize f s).2.filter p = [] := by
  rw [List.filter_eq_nil_iff]
  intro c hc
  simp [hp c (updateShowSize_window f s c hc)]

/-- No call of `updateShowSize` is `close()`. -/
theorem updateShowSize_closeCount (f : VideoForm) (s : QSize) :
    closeCount (updateShowSize f s).2 = 0 := by
  unfold closeCount
  rw [List.count_eq_zero]
  intro hc
  have := updateShowSize_window f s _ hc
  simp [Call.isWindow] at this

/-- No handler writes the serial or the server's device socket. -/
theorem handle_keeps (f : VideoForm) (e : Event) :
    (handle f e).1.m_serial = f.m_serial ∧ (handle f e).1.deviceSocket = f.deviceSocket := by
  cases e with
  | grabCursor grab =>
    simp only [handle, onGrabCursor]
    split <;> [split; skip] <;> simp
  | serverStartResult success =>
    simp only [handle, onServerStartResult]
    split <;> simp
  | connectToResult success deviceName size =>
    simp only [handle, onConnectToResult]
    split
    · simp only [andThen_fst]
      have h := updateShowSize_keeps { f with windowTitle := deviceName } size
      exact ⟨h.1, h.2.1⟩
    · simp
  | serverStop => simp [handle, onServerStop]
  | decodeStop => simp [handle, onDecodeStop]
  | newFrame frame =>
    simp only [handle, onNewFrame, andThen_fst]
    have h := updateShowSize_keeps f ⟨frame.width, frame.height⟩
    exact ⟨h.1, h.2.1⟩
  | timer => simp [handle, onTimer]
  | mousePress event => simp [handle, mousePressEvent]
  | mouseRelease event => simp [handle, mouseReleaseEvent]
  | mouseMove event => simp [handle, mouseMoveEvent]
  | wheel event => simp [handle, wheelEvent]
  | keyPress event =>
    simp only [handle, keyPressEvent, andThen_fst]
    split
    · have h := switchFullScreen_keeps f
      exact ⟨h.1, h.2.1⟩
    · simp
  | keyRelease event => simp [handle, keyReleaseEvent]
  | fullScreenClicked =>
    simp only [handle, on_fullScrcenbtn_clicked]
    have h := switchFullScreen_keeps f
    exact ⟨h.1, h.2.1⟩
  | returnClicked => simp [handle, on_returnBtn_clicked]

/-- A filter that rejects window calls rejects all of `switchFullScreen`. -/
theorem switchFullScreen_filter (p : Call → Bool) (hp : ∀ c, c.isWindow = true → p c = false)
    (f : VideoForm) : (switchFullScreen f).2.filter p = [] := by
  rw [List.filter_eq_nil_iff]
  intro c hc
  simp [hp c (switchFullScreen_window f c hc)]

theorem isActivation_of_window (c : Call) (h : c.isWindow = true) : c.isActivation = false := by
  cases c <;> simp_all [Call.isWindow, Call.isActivation]

theorem isLaunch_of_window (c : Call) (h : c.isWindow = true) : c.isLaunch = false := by
  cases c <;> simp_all [Call.isWindow, Call.isLaunch]

theorem isInput_of_window (c : Call) (h : c.isWindow = true) : c.isInput = false := by
  cases c <;> simp_all [Call.isWindow, Call.isInput]

theorem switchFullScreen_closeCount (f : VideoForm) :
    closeCount (switchFullScreen f).2 = 0 := by
  unfold switchFullScreen closeCount
  split <;> simp

/-- One handler calls `close()` once if its event is a stop signal, and not at
all otherwise. -/
theorem handle_closeCount (f : VideoForm) (e : Event) :
    closeCount (handle f e).2 = if e.isStop then 1 else 0 := by
  cases e with
  | grabCursor grab =>
    simp only [handle, onGrabCursor, Event.isStop]
    split <;> [split; skip] <;> simp [closeCount]
  | serverStartResult success =>
    simp only [handle, onServerStartResult, Event.isStop]
    split <;> simp [closeCount]
  | connectToResult success deviceName size =>
    simp only [handle, onConnectToResult, Event.isStop]
    split
    · have h := updateShowSize_closeCount { f with windowTitle := deviceName } size
      simp only [closeCount] at h
      simp [closeCount, andThen_snd, List.count_append, h]
    · simp [closeCount]
  | serverStop => simp [handle, onServerStop, Event.isStop, closeCount]
  | decodeStop => simp [handle, onDecodeStop, Event.isStop, closeCount]
  | newFrame frame =>
    have h := updateShowSize_closeCount f ⟨frame.width, frame.height⟩
    simp only [closeCount] at h
    simp [handle, onNewFrame, Event.isStop, closeCount, andThen_snd, List.count_append, h]
  | timer => simp [handle, onTimer, Event.isStop, closeCount]
  | mousePress event => simp [handle, mousePressEvent, Event.isStop, closeCount]
  | mouseRelease event => simp [handle, mouseReleaseEvent, Event.isStop, closeCount]
  | mouseMove event => simp [handle, mouseMoveEvent, Event.isStop, closeCount]
  | wheel event => simp [handle, wheelEvent, Event.isStop, closeCount]
  | keyPress event =>
    have h := switchFullScreen_closeCount f
    simp only [closeCount] at h
    simp only [handle, keyPressEvent, Event.isStop, closeCount, andThen_snd, List.count_append]
    split <;> simp [h]
  | keyRelease event => simp [handle, keyReleaseEvent, Event.isStop, closeCount]
  | fullScreenClicked =>
    simpa [handle, on_fullScrcenbtn_clicked, Event.isStop] using switchFullScreen_closeCount f
  | returnClicked => simp [handle, on_returnBtn_clicked, Event.isStop, closeCount]

/-- Over a run, `close()` is called once per stop signal delivered. -/
theorem run_closeCount (f : VideoForm) (evs : List Event) :
    closeCount (run f evs).2 = evs.countP Event.isStop := by
  induction evs generalizing f with
  | nil => rfl
  | cons e es ih =>
    rw [run_cons_snd]
    have h1 : closeCount ((handle f e).2 ++ (run (handle f e).1 es).2)
        = closeCount (handle f e).2 + closeCount (run (handle f e).1 es).2 := by
      simp [closeCount, List.count_append]
    rw [h1, ih, handle_closeCount, List.countP_cons]
    split
    · simp_all
      omega
    · simp_all

/-- The activation calls one handler makes. -/
theorem handle_activations (f : VideoForm) (e : Event) :
    activations (handle f e).2 = specActivations f.deviceSocket [e] := by
  have hu := updateShowSize_filter Call.isActivation isActivation_of_window
  have hs := switchFullScreen_filter Call.isActivation isActivation_of_window
  cases e with
  | grabCursor grab =>
    simp only [handle, onGrabCursor, specActivations]
    split <;> [split; skip] <;> simp [activations, Call.isActivation]
  | serverStartResult success =>
    simp only [handle, onServerStartResult, specActivations]
    split <;> simp [activations, Call.isActivation]
  | connectToResult success deviceName size =>
    cases success with
    | false => simp [handle, onConnectToResult, specActivations, activations]
    | true =>
      have h := updateShowSize_keeps { f with windowTitle := deviceName } size
      simp [handle, onConnectToResult, specActivations, activations, andThen_snd,
        andThen_fst, List.filter_append, hu, Call.isActivation, h.2.1]
  | serverStop => simp [handle, onServerStop, specActivations, activations, Call.isActivation]
  | decodeStop => simp [handle, onDecodeStop, specActivations, activations, Call.isActivation]
  | newFrame frame =>
    simp [handle, onNewFrame, specActivations, activations, andThen_snd, List.filter_append, hu,
      Call.isActivation]
  | timer => simp [handle, onTimer, specActivations, activations, Call.isActivation]
  | mousePress event =>
    simp [handle, mousePressEvent, specActivations, activations, Call.isActivation]
  | mouseRelease event =>
    simp [handle, mouseReleaseEvent, specActivations, activations, Call.isActivation]
  | mouseMove event =>
    simp [handle, mouseMoveEvent, specActivations, activations, Call.isActivation]
  | wheel event => simp [handle, wheelEvent, specActivations, activations, Call.isActivation]
  | keyPress event =>
    simp only [handle, keyPressEvent, specActivations, activations, andThen_snd,
      List.filter_append]
    split <;> simp [hs, Call.isActivation]
  | keyRelease event =>
    simp [handle, keyReleaseEvent, specActivations, activations, Call.isActivation]
  | fullScreenClicked =>
    simpa [handle, on_fullScrcenbtn_clicked, specActivations, activations] using hs f
  | returnClicked => simp [handle, on_returnBtn_clicked, specActivations, activations]

theorem specActivations_cons (socket : Nat) (e : Event) (es : List Event) :
    specActivations socket (e :: es) = specActivations socket [e] ++ specActivations socket es := by
  cases e with
  | connectToResult success deviceName size => cases success <;> simp [specActivations]
  | _ => simp [specActivations]

/-- Over a run, the activation calls are those of the successful handshake
results, in order. -/
theorem run_activations (f : VideoForm) (evs : List Event) :
    activations (run f evs).2 = specActivations f.deviceSocket evs := by
  induction evs generalizing f with
  | nil => rfl
  | cons e es ih =>
    rw [run_cons_snd, specActivations_cons, ← handle_activations, ← (handle_keeps f e).2, ← ih]
    simp [activations]

/-- The launch calls one handler makes. -/
theorem handle_launchCalls (f : VideoForm) (e : Event) :
    launchCalls (handle f e).2 = specLaunchCalls f.m_serial [e] := by
  have hu := updateShowSize_filter Call.isLaunch isLaunch_of_window
  have hs := switchFullScreen_filter Call.isLaunch isLaunch_of_window
  cases e with
  | grabCursor grab =>
    simp only [handle, onGrabCursor, specLaunchCalls]
    split <;> [split; skip] <;> simp [launchCalls, Call.isLaunch]
  | serverStartResult success =>
    cases success <;> simp [handle, onServerStartResult, specLaunchCalls, launchCalls,
      Call.isLaunch]
  | connectToResult success deviceName size =>
    cases success with
    | false => simp [handle, onConnectToResult, specLaunchCalls, launchCalls]
    | true =>
      simp [handle, onConnectToResult, specLaunchCalls, launchCalls, andThen_snd,
        List.filter_append, hu, Call.isLaunch]
  | serverStop => simp [handle, onServerStop, specLaunchCalls, launchCalls, Call.isLaunch]
  | decodeStop => simp [handle, onDecodeStop, specLaunchCalls, launchCalls, Call.isLaunch]
  | newFrame frame =>
    simp [handle, onNewFrame, specLaunchCalls, launchCalls, andThen_snd, List.filter_append, hu,
      Call.isLaunch]
  | timer => simp [handle, onTimer, specLaunchCalls, launchCalls, Call.isLaunch]
  | mousePress event =>
    simp [handle, mousePressEvent, specLaunchCalls, launchCalls, Call.isLaunch]
  | mouseRelease event =>
    simp [handle, mouseReleaseEvent, specLaunchCalls, launchCalls, Call.isLaunch]
  | mouseMove event =>
    simp [handle, mouseMoveEvent, specLaunchCalls, launchCalls, Call.isLaunch]
  | wheel event => simp [handle, wheelEvent, specLaunchCalls, launchCalls, Call.isLaunch]
  | keyPress event =>
    simp only [handle, keyPressEvent, specLaunchCalls, launchCalls, andThen_snd,
      List.filter_append]
    split <;> simp [hs, Call.isLaunch]
  | keyRelease event =>
    simp [handle, keyReleaseEvent, specLaunchCalls, launchCalls, Call.isLaunch]
  | fullScreenClicked =>
    simpa [handle, on_fullScrcenbtn_clicked, specLaunchCalls, launchCalls] using hs f
  | returnClicked => simp [handle, on_returnBtn_clicked, specLaunchCalls, launchCalls]

theorem specLaunchCalls_cons (serial : String) (e : Event) (es : List Event) :
    specLaunchCalls serial (e :: es) = specLaunchCalls serial [e] ++ specLaunchCalls serial es := by
  cases e with
  | serverStartResult success => cases success <;> simp [specLaunchCalls]
  | _ => simp [specLaunchCalls]

/-- Over a run, the launch calls are those of the timer callbacks and the
successful bootstrap results, in order. -/
theorem run_launchCalls (f : VideoForm) (evs : List Event) :
    launchCalls (run f evs).2 = specLaunchCalls f.m_serial evs := by
  induction evs generalizing f with
  | nil => rfl
  | cons e es ih =>
    rw [run_cons_snd, specLaunchCalls_cons, ← handle_launchCalls, ← (handle_keeps f e).1, ← ih]
    simp [launchCalls]

/-- The input calls one handler makes. -/
theorem handle_inputCalls (f : VideoForm) (e : Event) :
    inputCalls (handle f e).2 = specForward f e := by
  have hu := updateShowSize_filter Call.isInput isInput_of_window
  have hs := switchFullScreen_filter Call.isInput isInput_of_window
  cases e with
  | grabCursor grab =>
    simp only [handle, onGrabCursor, specForward]
    split <;> [split; skip] <;> simp [inputCalls, Call.isInput]
  | serverStartResult success =>
    cases success <;> simp [handle, onServerStartResult, specForward, inputCalls, Call.isInput]
  | connectToResult success deviceName size =>
    cases success with
    | false => simp [handle, onConnectToResult, specForward, inputCalls]
    | true =>
      simp [handle, onConnectToResult, specForward, inputCalls, andThen_snd,
        List.filter_append, hu, Call.isInput]
  | serverStop => simp [handle, onServerStop, specForward, inputCalls, Call.isInput]
  | decodeStop => simp [handle, onDecodeStop, specForward, inputCalls, Call.isInput]
  | newFrame frame =>
    simp [handle, onNewFrame, specForward, inputCalls, andThen_snd, List.filter_append, hu,
      Call.isInput]
  | timer => simp [handle, onTimer, specForward, inputCalls, Call.isInput]
  | mousePress event => simp [handle, mousePressEvent, specForward, inputCalls, Call.isInput]
  | mouseRelease event => simp [handle, mouseReleaseEvent, specForward, inputCalls, Call.isInput]
  | mouseMove event => simp [handle, mouseMoveEvent, specForward, inputCalls, Call.isInput]
  | wheel event => simp [handle, wheelEvent, specForward, inputCalls, Call.isInput]
  | keyPress event =>
    have hk := switchFullScreen_keeps f
    simp only [handle, keyPressEvent, specForward, inputCalls, andThen_snd, andThen_fst,
      List.filter_append]
    split <;> simp [hs, Call.isInput, hk.2.2.2.1, hk.2.2.2.2.1]
  | keyRelease event => simp [handle, keyReleaseEvent, specForward, inputCalls, Call.isInput]
  | fullScreenClicked =>
    simpa [handle, on_fullScrcenbtn_clicked, specForward, inputCalls] using hs f
  | returnClicked => simp [handle, on_returnBtn_clicked, specForward, inputCalls]

/-- Over a run, the input calls are the forwarded input events, in order. -/
theorem run_inputCalls (f : VideoForm) (evs : List Event) :
    inputCalls (run f evs).2 = specInputCalls f evs := by
  induction evs generalizing f with
  | nil => rfl
  | cons e es ih =>
    rw [run_cons_snd]
    simp only [specInputCalls]
    rw [← handle_inputCalls, ← ih]
    simp [inputCalls]

/-- When no handshake succeeds, nothing is activated. -/
theorem specActivations_of_no_success (socket : Nat) (evs : List Event)
    (h : ∀ e ∈ evs, e.isHandshakeSuccess = false) : specActivations socket evs = [] := by
  induction evs with
  | nil => rfl
  | cons e es ih =>
    rw [specActivations_cons, ih (fun x hx => h x (List.mem_cons_of_mem _ hx))]
    have he := h e (List.mem_cons_self _ _)
    cases e with
    | connectToResult success deviceName size =>
      cases success
      · simp [specActivations]
      · simp [Event.isHandshakeSuccess] at he
    | _ => simp [specActivations]

/-- The calls the constructor makes besides the set-up ones are window calls
and the two icon calls. -/
theorem construct_filter (p : Call → Bool) (hp : ∀ c, c.isWindow = true → p c = false)
    (f : VideoForm) :
    (construct f).2.filter p =
      [Call.setupUi, Call.setAttributeDeleteOnClose, Call.setMouseTracking,
        Call.videoSetMouseTracking, Call.newServer, Call.framesInit,
        Call.decoderSetFrames, Call.timerSingleShot].filter p ++
      [Call.setIcon "fullScrcenbtn" 0xf0b2 13, Call.setIcon "returnBtn" 0xf104 15].filter p := by
  simp only [construct, andThen_snd, andThen_fst, initStyle, List.filter_append,
    updateShowSize_filter p hp, List.append_nil]

theorem lockHeldAfter_window (held : Bool) (t rest : List Call)
    (ht : ∀ c ∈ t, c.isWindow = true) :
    lockHeldAfter held (t ++ rest) = lockHeldAfter held rest := by
  induction t with
  | nil => rfl
  | cons c cs ih =>
    have hc := ht c (List.mem_cons_self _ _)
    have ih2 := ih (fun x hx => ht x (List.mem_cons_of_mem _ hx))
    cases c <;> simp_all [lockHeldAfter, Call.isWindow]

/-- The calls of the frame-ready handler, spelled out. -/
theorem onNewFrame_calls (f : VideoForm) (frame : AVFrame) :
    (onNewFrame f frame).2 =
      Call.framesLock :: Call.framesConsumeRenderedFrame ::
        ((updateShowSize f ⟨frame.width, frame.height⟩).2 ++
          [Call.videoSetFrameSize ⟨frame.width, frame.height⟩,
           Call.videoUpdateTextures frame.data0 frame.data1 frame.data2
             frame.linesize0 frame.linesize1 frame.linesize2,
           Call.framesUnLock]) := by
  simp [onNewFrame, andThen_snd]

/-- A frame of the stored size only sets the video widget's frame size and
uploads the textures. -/
theorem onNewFrame_same_size (g : VideoForm) (frame : AVFrame)
    (h : g.frameSize = ⟨frame.width, frame.height⟩) :
    onNewFrame g frame =
      ({ g with videoFrameSize := ⟨frame.width, frame.height⟩ },
        [Call.framesLock, Call.framesConsumeRenderedFrame,
         Call.videoSetFrameSize ⟨frame.width, frame.height⟩,
         Call.videoUpdateTextures frame.data0 frame.data1 frame.data2
           frame.linesize0 frame.linesize1 frame.linesize2,
         Call.framesUnLock]) := by
  have hu : updateShowSize g ⟨frame.width, frame.height⟩ = (g, []) := by
    rw [← h]
    exact updateShowSize_same g
  simp [onNewFrame, andThen, hu]

/-- A stream of frames of the stored size leaves the window alone. -/
theorem run_frames_same_size (size : QSize) (frs : List AVFrame)
    (h : ∀ fr ∈ frs, fr.width = size.width ∧ fr.height = size.height)
    (g : VideoForm) (hg : g.frameSize = size) :
    windowCalls (run g (frs.map Event.newFrame)).2 = [] ∧
    (run g (frs.map Event.newFrame)).1.frameSize = g.frameSize ∧
    (run g (frs.map Event.newFrame)).1.pos = g.pos ∧
    (run g (frs.map Event.newFrame)).1.size = g.size ∧
    (run g (frs.map Event.newFrame)).1.fullScreen = g.fullScreen := by
  induction frs generalizing g with
  | nil => simp [run, windowCalls]
  | cons fr rest ih =>
    have hfr := h fr (List.mem_cons_self _ _)
    have hsame : g.frameSize = ⟨fr.width, fr.height⟩ := by
      rw [hg, hfr.1, hfr.2]
    have hstep := onNewFrame_same_size g fr hsame
    have ih2 := ih (fun x hx => h x (List.mem_cons_of_mem _ hx))
      { g with videoFrameSize := ⟨fr.width, fr.height⟩ } hg
    simp only [List.map_cons, run_cons_snd, run_cons_fst, handle, hstep]
    refine ⟨?_, ih2.2.1, ih2.2.2.1, ih2.2.2.2.1, ih2.2.2.2.2⟩
    have h1 := ih2.1
    simp only [windowCalls] at h1 ⊢
    rw [List.filter_append, h1]
    simp [Call.isWindow]

theorem resizeArgs_append (a b : List Call) :
    resizeArgs (a ++ b) = resizeArgs a ++ resizeArgs b := by
  induction a with
  | nil => rfl
  | cons c cs ih => cases c <;> simp [resizeArgs, ih]

theorem fitToDesktop_resizeArgs (f : VideoForm) (s : QSize) (r : QRect) :
    resizeArgs (fitToDesktop f s r).1.2 = [] := by
  simp only [fitToDesktop, andThen_snd, resizeArgs_append]
  split
  · unfold switchFullScreen
    split <;> simp [resizeArgs]
  · simp [resizeArgs]

theorem resizeIfChanged_resizeArgs (g : VideoForm) (s : QSize) :
    ∀ x ∈ resizeArgs (resizeIfChanged g s).2, x = s := by
  intro x hx
  unfold resizeIfChanged at hx
  split at hx <;> simp [resizeArgs] at hx
  exact hx

theorem wrapInt_of_range (z : Int) (h1 : -2147483648 ≤ z) (h2 : z ≤ 2147483647) :
    wrapInt z = z := by
  unfold wrapInt
  omega

theorem wrapInt_le (z : Int) : wrapInt z ≤ 2147483647 := by
  unfold wrapInt
  omega

theorem half_of_nonneg (a : Int) (h : 0 ≤ a) : half a = a / 2 := by
  unfold half
  exact Int.tdiv_eq_ediv h (by decide)

/-! ## The claims -/

/-- C1, as the code has it: every stop signal delivered to the form calls
`close()` once. Over any sequence of events the number of `close()` calls is
the number of stop signals in it; a later stop signal calls `close()` again. -/
theorem close_once_per_stop_signal (f : VideoForm) (evs : List Event) :
    closeCount (run f evs).2 = evs.countP Event.isStop ∧
    closeCount (handle f Event.serverStop).2 = 1 ∧
    closeCount (handle f Event.decodeStop).2 = 1 := by
  refine ⟨run_closeCount f evs, ?_, ?_⟩
  · rw [handle_closeCount]
    rfl
  · rw [handle_closeCount]
    rfl

/-- C1 fails as stated: `onServerStop` followed by `onDecodeStop` calls
`close()` twice, and the second handler is not a no-op. -/
theorem two_stop_signals_close_twice :
    closeCount (run sampleForm [Event.serverStop, Event.decodeStop]).2 = 2 ∧
    closeCount (run sampleForm [Event.serverStop, Event.decodeStop]).2 ≠ 1 ∧
    (handle (handle sampleForm Event.serverStop).1 Event.decodeStop).2 =
      [Call.close, Call.qDebug "decoder thread stop"] := by
  decide

/-- C2, as the code has it: the handler of a failed handshake result makes no
call and changes nothing. As long as no handshake succeeds, the decoder is
never given a socket or started and the input translator is never given the
device socket; `close()` is called once per stop signal delivered, and not by
the failed handshake. -/
theorem failed_handshake_activates_nothing (f : VideoForm) (evs : List Event)
    (deviceName : String) (size : QSize)
    (h : ∀ e ∈ evs, e.isHandshakeSuccess = false) :
    handle f (Event.connectToResult false deviceName size) = (f, []) ∧
    activations (run f evs).2 = [] ∧
    closeCount (run f evs).2 = evs.countP Event.isStop := by
  refine ⟨rfl, ?_, run_closeCount f evs⟩
  rw [run_activations, specActivations_of_no_success _ _ h]

/-- C2's theorem at a launch whose handshake fails and whose server then stops. -/
theorem failed_handshake_activates_nothing_witness :
    (∀ e ∈ [Event.timer, Event.serverStartResult true,
        Event.connectToResult false "" ⟨0, 0⟩, Event.serverStop],
      e.isHandshakeSuccess = false) ∧
    handle sampleForm (Event.connectToResult false "" ⟨0, 0⟩) = (sampleForm, []) ∧
    activations (run sampleForm [Event.timer, Event.serverStartResult true,
        Event.connectToResult false "" ⟨0, 0⟩, Event.serverStop]).2 = [] ∧
    closeCount (run sampleForm [Event.timer, Event.serverStartResult true,
        Event.connectToResult false "" ⟨0, 0⟩, Event.serverStop]).2 =
      [Event.timer, Event.serverStartResult true,
        Event.connectToResult false "" ⟨0, 0⟩, Event.serverStop].countP Event.isStop :=
  ⟨by decide,
    failed_handshake_activates_nothing sampleForm _ "" ⟨0, 0⟩ (by decide)⟩

/-- C2 fails as stated: after a launch whose handshake fails, `close()` has not
been called. -/
theorem failed_handshake_does_not_close :
    (run sampleForm [Event.timer, Event.serverStartResult true,
        Event.connectToResult false "" ⟨0, 0⟩]).2 =
      [Call.serverStart "P7C0218510000537" 27183 720 8000000 "", Call.serverConnectTo] ∧
    closeCount (run sampleForm [Event.timer, Event.serverStartResult true,
        Event.connectToResult false "" ⟨0, 0⟩]).2 = 0 ∧
    closeCount (run sampleForm [Event.timer, Event.serverStartResult true,
        Event.connectToResult false "" ⟨0, 0⟩]).2 ≠ 1 := by
  decide

/-- C3, as the code has it: the destructor closes the control channel first
(`Server::stop`), then signals the decode pump to exit (`Decoder::stopDecode`),
each once; the server object and the frame buffer are released after both. -/
theorem destructor_stops_server_then_decoder (f : VideoForm) :
    (destruct f).count Call.serverStop = 1 ∧
    (destruct f).count Call.decoderStopDecode = 1 ∧
    precedes Call.serverStop Call.decoderStopDecode (destruct f) = true ∧
    precedes Call.decoderStopDecode Call.deleteServer (destruct f) = true ∧
    precedes Call.decoderStopDecode Call.framesDeInit (destruct f) = true ∧
    precedes Call.serverStop Call.deleteServer (destruct f) = true ∧
    precedes Call.serverStop Call.framesDeInit (destruct f) = true := by
  simp only [destruct]
  decide

/-- C3 fails as stated: in the destructor `Decoder::stopDecode` does not come
before `Server::stop`; it is the second call, `Server::stop` the first. -/
theorem destructor_does_not_stop_decoder_first :
    precedes Call.decoderStopDecode Call.serverStop (destruct sampleForm) = false ∧
    (destruct sampleForm).indexOf Call.serverStop = 0 ∧
    (destruct sampleForm).indexOf Call.decoderStopDecode = 1 := by
  decide

/-- C4: over every sequence of events the calls that give the decoder a socket,
start it, or give the input translator a socket are exactly those of the
successful handshake results, in order; the constructor makes none. A
successful handshake result gives the decoder the server's device socket,
then starts it, then gives the input translator that same socket. -/
theorem activation_only_on_handshake_success (f : VideoForm) (evs : List Event)
    (deviceName : String) (size : QSize) :
    activations (run f evs).2 = specActivations f.deviceSocket evs ∧
    activations (construct f).2 = [] ∧
    activations (handle f (Event.connectToResult true deviceName size)).2 =
      [Call.decoderSetDeviceSocket f.deviceSocket, Call.decoderStartDecode,
        Call.inputSetDeviceSocket f.deviceSocket] := by
  refine ⟨run_activations f evs, ?_, ?_⟩
  · unfold activations
    rw [construct_filter _ isActivation_of_window]
    decide
  · rw [handle_activations]
    rfl

/-- C5: over every sequence of events `Server::start` is called exactly by the
timer callbacks and `Server::connectTo` exactly by the successful bootstrap
results, in order; the constructor calls neither and arms the single-shot timer
once; a failed bootstrap result and a failed handshake result call nothing. -/
theorem no_automatic_retry (f : VideoForm) (evs : List Event)
    (deviceName : String) (size : QSize) :
    launchCalls (run f evs).2 = specLaunchCalls f.m_serial evs ∧
    launchCalls (construct f).2 = [] ∧
    (construct f).2.count Call.timerSingleShot = 1 ∧
    handle f (Event.serverStartResult false) = (f, []) ∧
    handle f (Event.connectToResult false deviceName size) = (f, []) := by
  refine ⟨run_launchCalls f evs, ?_, ?_, rfl, rfl⟩
  · unfold launchCalls
    rw [construct_filter _ isLaunch_of_window]
    decide
  · have h := construct_filter (fun c => decide (c = Call.timerSingleShot))
      (by intro c hc; cases c <;> simp_all [Call.isWindow]) f
    rw [List.count, List.countP_eq_length_filter]
    have h2 : (fun c => decide (c = Call.timerSingleShot)) = (fun c => c == Call.timerSingleShot) := by
      funext c
      rfl
    rw [← h2, h]
    decide

/-- C7: over every sequence of events the calls to the input translator are
exactly the input events received, each once and in order, with the video
widget's frame size and size at the time the event is handled. A key press is
forwarded whether or not it is the Escape key that leaves full screen. -/
theorem input_events_forwarded_in_order (f : VideoForm) (evs : List Event)
    (mouse : QMouseEvent) (wheel : QWheelEvent) (key : QKeyEvent) :
    inputCalls (run f evs).2 = specInputCalls f evs ∧
    (handle f (Event.mousePress mouse)).2 =
      [Call.inputMouseEvent mouse f.videoFrameSize f.videoSize] ∧
    (handle f (Event.mouseRelease mouse)).2 =
      [Call.inputMouseEvent mouse f.videoFrameSize f.videoSize] ∧
    (handle f (Event.mouseMove mouse)).2 =
      [Call.inputMouseEvent mouse f.videoFrameSize f.videoSize] ∧
    (handle f (Event.wheel wheel)).2 =
      [Call.inputWheelEvent wheel f.videoFrameSize f.videoSize] ∧
    (handle f (Event.keyRelease key)).2 =
      [Call.inputKeyEvent key f.videoFrameSize f.videoSize] ∧
    (handle f (Event.keyPress key)).2 =
      (if Key_Escape = key.key && !key.isAutoRepeat && f.fullScreen then
        [Call.showNormal, Call.rightToolShow] else []) ++
      [Call.inputKeyEvent key f.videoFrameSize f.videoSize] := by
  refine ⟨run_inputCalls f evs, rfl, rfl, rfl, rfl, rfl, ?_⟩
  simp only [handle, keyPressEvent, andThen_snd, andThen_fst]
  split
  · rename_i h
    have hfs : f.fullScreen = true := by simp_all
    simp [switchFullScreen, hfs]
  · simp

/-- C8: the frame-ready handler calls `lock()`, `consumeRenderedFrame()` and
`unLock()` once each, as its first, second and last call, so the lock is not
held when it returns; it calls `setFrameSize` once, with the frame's width and
height, and leaves both the form's stored frame size and the video widget's
frame size equal to them. -/
theorem frame_ready_locks_once_and_sets_sizes (f : VideoForm) (frame : AVFrame) :
    (onNewFrame f frame).2.count Call.framesLock = 1 ∧
    (onNewFrame f frame).2.count Call.framesConsumeRenderedFrame = 1 ∧
    (onNewFrame f frame).2.count Call.framesUnLock = 1 ∧
    (onNewFrame f frame).2.head? = some Call.framesLock ∧
    (onNewFrame f frame).2.tail.head? = some Call.framesConsumeRenderedFrame ∧
    (onNewFrame f frame).2.getLast? = some Call.framesUnLock ∧
    lockHeldAfter false (onNewFrame f frame).2 = false ∧
    (onNewFrame f frame).2.filter (fun c => c matches Call.videoSetFrameSize _) =
      [Call.videoSetFrameSize ⟨frame.width, frame.height⟩] ∧
    (onNewFrame f frame).1.frameSize = ⟨frame.width, frame.height⟩ ∧
    (onNewFrame f frame).1.videoFrameSize = ⟨frame.width, frame.height⟩ := by
  have hw := updateShowSize_window f ⟨frame.width, frame.height⟩
  have hcount : ∀ c : Call, c.isWindow = false →
      (updateShowSize f ⟨frame.width, frame.height⟩).2.count c = 0 := by
    intro c hc
    rw [List.count_eq_zero]
    intro hmem
    rw [hw c hmem] at hc
    exact Bool.noConfusion hc
  have hfilter := updateShowSize_filter (fun c => c matches Call.videoSetFrameSize _)
    (by intro c hc; cases c <;> simp_all [Call.isWindow]) f ⟨frame.width, frame.height⟩
  rw [onNewFrame_calls]
  refine ⟨?_, ?_, ?_, rfl, rfl, ?_, ?_, ?_, ?_, ?_⟩
  · simp [List.count_cons, List.count_append, hcount Call.framesLock rfl]
  · simp [List.count_cons, List.count_append, hcount Call.framesConsumeRenderedFrame rfl]
  · simp [List.count_cons, List.count_append, hcount Call.framesUnLock rfl]
  · have hl : Call.framesLock :: Call.framesConsumeRenderedFrame ::
        ((updateShowSize f ⟨frame.width, frame.height⟩).2 ++
          [Call.videoSetFrameSize ⟨frame.width, frame.height⟩,
           Call.videoUpdateTextures frame.data0 frame.data1 frame.data2
             frame.linesize0 frame.linesize1 frame.linesize2,
           Call.framesUnLock]) =
        (Call.framesLock :: Call.framesConsumeRenderedFrame ::
          ((updateShowSize f ⟨frame.width, frame.height⟩).2 ++
            [Call.videoSetFrameSize ⟨frame.width, frame.height⟩,
             Call.videoUpdateTextures frame.data0 frame.data1 frame.data2
               frame.linesize0 frame.linesize1 frame.linesize2])) ++
          [Call.framesUnLock] := by
      simp
    rw [hl, List.getLast?_concat]
  · simp only [lockHeldAfter]
    rw [lockHeldAfter_window _ _ _ hw]
    simp [lockHeldAfter]
  · simp only [List.filter_cons, List.filter_append, hfilter]
    simp
  · simp only [onNewFrame, andThen_fst]
    exact (updateShowSize_keeps f ⟨frame.width, frame.height⟩).2.2.1
  · simp [onNewFrame, andThen_fst]

/-- C9, as the code has it: for a new frame size with non-negative width and
height, a desktop whose available rectangle has non-negative width and height
and a title-bar height between 0 and the largest `int`, the size passed to
`resize` has its longer side clamped to the screen and its shorter side set to
half of it. For a portrait frame it is (half of min(height, screen height),
min(height, screen height) minus the title bar): its height fits, its width
fits when half the screen height is at most the screen width. For a landscape
or square frame it is (min(width, screen width), half of that minus the title
bar): its width fits, its height fits when half the screen width is at most
the screen height. -/
theorem resize_clamps_longer_side (f : VideoForm) (newSize : QSize) (r : QRect)
    (hnew : f.frameSize ≠ newSize) (hd : f.desktop = some r)
    (hw : 0 ≤ newSize.width) (hh : 0 ≤ newSize.height)
    (hrw : 0 ≤ r.width) (hrh : 0 ≤ r.height)
    (htb : 0 ≤ f.titleBarHeight) (htb2 : f.titleBarHeight ≤ 2147483647) :
    ∀ s ∈ resizeArgs (updateShowSize f newSize).2,
      (newSize.height > newSize.width →
        s = ⟨half (min newSize.height r.height),
              min newSize.height r.height - f.titleBarHeight⟩ ∧
        s.height ≤ r.height ∧ (half r.height ≤ r.width → s.width ≤ r.width)) ∧
      (¬ newSize.height > newSize.width →
        s = ⟨min newSize.width r.width,
              half (min newSize.width r.width) - f.titleBarHeight⟩ ∧
        s.width ≤ r.width ∧ (half r.width ≤ r.height → s.height ≤ r.height)) := by
  intro s hs
  rw [updateShowSize_some f newSize r hnew hd, andThen_snd, resizeArgs_append,
    fitToDesktop_resizeArgs, List.nil_append] at hs
  have hs2 := resizeIfChanged_resizeArgs _ _ s hs
  rw [(fitToDesktop_keeps { f with frameSize := newSize } newSize r).2.2.2.2.2] at hs2
  have hrw2 := wrapInt_le (r.x2 - r.x1 + 1)
  have hrh2 := wrapInt_le (r.y2 - r.y1 + 1)
  change r.width ≤ 2147483647 at hrw2
  change r.height ≤ 2147483647 at hrh2
  have hhr := half_of_nonneg r.height hrh
  have hwr := half_of_nonneg r.width hrw
  constructor
  · intro hv
    have hm : 0 ≤ min newSize.height r.height := le_min hh hrh
    have hhalf := half_of_nonneg _ hm
    have hfit : (fitToDesktop { f with frameSize := newSize } newSize r).2 =
        ⟨half (min newSize.height r.height), min newSize.height r.height⟩ := by
      simp [fitToDesktop, hv, QSize.setHeight, QSize.setWidth]
    rw [hfit] at hs2
    have hwrap : wrapInt (min newSize.height r.height - f.titleBarHeight) =
        min newSize.height r.height - f.titleBarHeight := by
      apply wrapInt_of_range <;> omega
    simp only [QSize.setHeight, hwrap] at hs2
    subst hs2
    refine ⟨rfl, ?_, ?_⟩
    · show min newSize.height r.height - f.titleBarHeight ≤ r.height
      omega
    · intro hfits
      show half (min newSize.height r.height) ≤ r.width
      omega
  · intro hv
    have hm : 0 ≤ min newSize.width r.width := le_min hw hrw
    have hhalf := half_of_nonneg _ hm
    have hfit : (fitToDesktop { f with frameSize := newSize } newSize r).2 =
        ⟨min newSize.width r.width, half (min newSize.width r.width)⟩ := by
      simp [fitToDesktop, hv, QSize.setHeight, QSize.setWidth]
    rw [hfit] at hs2
    have hwrap : wrapInt (half (min newSize.width r.width) - f.titleBarHeight) =
        half (min newSize.width r.width) - f.titleBarHeight := by
      apply wrapInt_of_range <;> omega
    simp only [QSize.setHeight, hwrap] at hs2
    subst hs2
    refine ⟨rfl, ?_, ?_⟩
    · show min newSize.width r.width ≤ r.width
      omega
    · intro hfits
      show half (min newSize.width r.width) - f.titleBarHeight ≤ r.height
      omega

/-- C9's theorem at the first 720x1280 frame on a 1920x1080 desktop. -/
theorem resize_clamps_longer_side_witness :
    sampleForm.frameSize ≠ ⟨720, 1280⟩ ∧
    sampleForm.desktop = some (QRect.ofXYWH 0 0 1920 1080) ∧
    resizeArgs (updateShowSize sampleForm ⟨720, 1280⟩).2 = [⟨540, 1050⟩] ∧
    ∀ s ∈ resizeArgs (updateShowSize sampleForm ⟨720, 1280⟩).2,
      ((1280 : Int) > 720 →
        s = ⟨half (min 1280 (QRect.ofXYWH 0 0 1920 1080).height),
              min 1280 (QRect.ofXYWH 0 0 1920 1080).height - sampleForm.titleBarHeight⟩ ∧
        s.height ≤ (QRect.ofXYWH 0 0 1920 1080).height ∧
        (half (QRect.ofXYWH 0 0 1920 1080).height ≤ (QRect.ofXYWH 0 0 1920 1080).width →
          s.width ≤ (QRect.ofXYWH 0 0 1920 1080).width)) ∧
      (¬ (1280 : Int) > 720 →
        s = ⟨min 720 (QRect.ofXYWH 0 0 1920 1080).width,
              half (min 720 (QRect.ofXYWH 0 0 1920 1080).width) - sampleForm.titleBarHeight⟩ ∧
        s.width ≤ (QRect.ofXYWH 0 0 1920 1080).width ∧
        (half (QRect.ofXYWH 0 0 1920 1080).width ≤ (QRect.ofXYWH 0 0 1920 1080).height →
          s.height ≤ (QRect.ofXYWH 0 0 1920 1080).height)) :=
  ⟨by decide, rfl, by decide,
    resize_clamps_longer_side sampleForm ⟨720, 1280⟩ (QRect.ofXYWH 0 0 1920 1080)
      (by decide) rfl (by decide) (by decide) (by decide) (by decide) (by decide) (by decide)⟩

/-- C9 fails as stated: on an ultra-wide 2560x1080 desktop with a 30 pixel
title bar, a 2960x1440 frame makes `updateShowSize` call `resize(2560, 1250)`,
taller than the 1080 pixels available. -/
theorem resize_taller_than_screen :
    ultraWideForm.frameSize ≠ ⟨2960, 1440⟩ ∧
    ultraWideForm.desktop = some (QRect.ofXYWH 0 0 2560 1080) ∧
    (QRect.ofXYWH 0 0 2560 1080).width = 2560 ∧
    (QRect.ofXYWH 0 0 2560 1080).height = 1080 ∧
    (updateShowSize ultraWideForm ⟨2960, 1440⟩).2 =
      [Call.move ⟨0, -100⟩, Call.resize ⟨2560, 1250⟩] ∧
    ¬ ((1250 : Int) ≤ (QRect.ofXYWH 0 0 2560 1080).height) := by
  decide

/-- C10: `updateShowSize` with the stored size changes nothing and makes no
call; called a second time with the same size it changes nothing more and
makes no call; and after a first frame, further frames of the same width and
height make no window call and leave the stored size, the position, the size
and the full-screen state of the window as they were. -/
theorem updateShowSize_same_size_is_noop (f : VideoForm) (s : QSize) (frame : AVFrame)
    (frames : List AVFrame)
    (h : ∀ fr ∈ frames, fr.width = frame.width ∧ fr.height = frame.height) :
    updateShowSize f f.frameSize = (f, []) ∧
    updateShowSize (updateShowSize f s).1 s = ((updateShowSize f s).1, []) ∧
    windowCalls (run (onNewFrame f frame).1 (frames.map Event.newFrame)).2 = [] ∧
    (run (onNewFrame f frame).1 (frames.map Event.newFrame)).1.frameSize =
      (onNewFrame f frame).1.frameSize ∧
    (run (onNewFrame f frame).1 (frames.map Event.newFrame)).1.pos =
      (onNewFrame f frame).1.pos ∧
    (run (onNewFrame f frame).1 (frames.map Event.newFrame)).1.size =
      (onNewFrame f frame).1.size ∧
    (run (onNewFrame f frame).1 (frames.map Event.newFrame)).1.fullScreen =
      (onNewFrame f frame).1.fullScreen := by
  refine ⟨updateShowSize_same f, ?_, ?_⟩
  · have hk := (updateShowSize_keeps f s).2.2.1
    have hsame := updateShowSize_same (updateShowSize f s).1
    rw [hk] at hsame
    exact hsame
  · have hg : (onNewFrame f frame).1.frameSize = ⟨frame.width, frame.height⟩ := by
      simp only [onNewFrame, andThen_fst]
      exact (updateShowSize_keeps f ⟨frame.width, frame.height⟩).2.2.1
    exact run_frames_same_size ⟨frame.width, frame.height⟩ frames h _ hg

/-- C10's theorem at a first 720x1280 frame followed by two more of that size. -/
theorem updateShowSize_same_size_is_noop_witness :
    (∀ fr ∈ [sampleFrame, { sampleFrame with data0 := 16384 }],
      fr.width = sampleFrame.width ∧ fr.height = sampleFrame.height) ∧
    (updateShowSize sampleForm ⟨720, 1280⟩).2 = [Call.move ⟨690, 0⟩, Call.resize ⟨540, 1050⟩] ∧
    updateShowSize (updateShowSize sampleForm ⟨720, 1280⟩).1 ⟨720, 1280⟩ =
      ((updateShowSize sampleForm ⟨720, 1280⟩).1, []) ∧
    windowCalls (run (onNewFrame sampleForm sampleFrame).1
      ([sampleFrame, { sampleFrame with data0 := 16384 }].map Event.newFrame)).2 = [] :=
  ⟨by decide, by decide,
    (updateShowSize_same_size_is_noop sampleForm ⟨720, 1280⟩ sampleFrame
      [sampleFrame, { sampleFrame with data0 := 16384 }] (by decide)).2.1,
    (updateShowSize_same_size_is_noop sampleForm ⟨720, 1280⟩ sampleFrame
      [sampleFrame, { sampleFrame with data0 := 16384 }] (by decide)).2.2.1⟩

end QtScrcpy
